import Mathlib

/-!
Verification of the uptime-ferris monitoring service core.

The development shallowly embeds the parts of `src/main.rs` (and the SQL text
in `src/sqlite_queries.rs` / `src/postgres_queries.rs`) that the claims are
about:

* `fill_data_gaps` — the gap-filling aggregation of `WebsiteStats` buckets
  (main.rs:351-389).  Timestamps are modelled as `Int` nanoseconds since the
  Unix epoch; chrono's `with_minute(0)/with_second(0)/with_nanosecond(0)` is
  floor-to-hour and `with_hour(0)` zeroes the civil hour field.  Since the
  Rust code calls `Utc::now()` afresh on every loop iteration, the model
  takes a `clock : Nat → Int` giving the instant sampled at iteration `i`;
  `fill_data_gaps` specialises it to a constant clock.  Rust's stable
  `Vec::sort_by` with comparator `b.time.cmp(&a.time)` is `List.mergeSort`
  (also a stable sort) with the corresponding `le`.
* the per-bucket uptime percentage computed by the SQL
  `COUNT(CASE WHEN status = 200 THEN 1 END) * 100 / COUNT(*)`
  (integer, truncating division on non-negative operands).
* one tick of the probing loop `check_websites_postgres` /
  `check_websites_sqlite` (main.rs:532-586), where each site's probe outcome
  is an input (`some code` for an HTTP response, `none` for a network-level
  failure) and the `unwrap()` on a failed probe is modelled as abnormal
  termination of the whole tick.
* `delete_website_postgres` / `delete_website_sqlite` (main.rs:468-524):
  a transaction running first the Logs DELETE, then the Websites DELETE,
  committing at the end and rolling back if either statement errors.  The
  Logs statement, `DELETE FROM Logs LEFT JOIN Websites ...`, is a syntax
  error in both dialects (neither PostgreSQL nor SQLite accepts a JOIN in
  DELETE), so executing it always errors: every delete rolls back.
-/

namespace UptimeFerris

/-- Nanoseconds per second; chrono timestamps are modelled at nanosecond
resolution because `with_nanosecond(0)` is part of the truncation. -/
def nsPerSec : Int := 1000000000

/-- Nanoseconds per hour. -/
def hourNs : Int := 3600 * nsPerSec

/-- Nanoseconds per civil UTC day (Unix time has no leap seconds). -/
def dayNs : Int := 86400 * nsPerSec

/-- The `WebsiteStats` row of main.rs: a bucket timestamp and an optional
uptime percentage (`None` marks a synthesized, data-free bucket). -/
structure WebsiteStats where
  time : Int
  uptime_pct : Option Int
deriving DecidableEq, Repr

/-- The `SplitBy` enum of main.rs. -/
inductive SplitBy where
  | Hour
  | Day
deriving DecidableEq, Repr

/-- chrono `t.with_minute(0).with_second(0).with_nanosecond(0)`: zeroing the
minute, second and sub-second fields is flooring to the enclosing hour. -/
def zeroMinSecNano (t : Int) : Int := t - t % hourNs

/-- chrono `t.with_hour(0)`: subtract the civil hour field
(`(t mod day) / hour` hours), keeping minute/second/nanosecond fields. -/
def zeroHour (t : Int) : Int := t - t % dayNs / hourNs * hourNs

/-- The timestamp synthesized at loop iteration `i` of `fill_data_gaps`:
`Utc::now() - Duration::seconds(number_of_seconds * i)`, truncated to the
hour, and for daily granularity additionally `with_hour(0)`. -/
def gapTime (format : SplitBy) (number_of_seconds : Int) (now : Int) (i : Int) : Int :=
  let t := now - number_of_seconds * i * nsPerSec
  let t := zeroMinSecNano t
  match format with
  | .Day => zeroHour t
  | .Hour => t

/-- One iteration of the fill loop body: if no bucket with timestamp `t`
exists yet in `data` (synthesized ones included), push `{time: t, uptime_pct: None}`. -/
def fillStep (data : List WebsiteStats) (t : Int) : List WebsiteStats :=
  if data.any (fun x => x.time == t) then data else data ++ [⟨t, none⟩]

/-- `fill_data_gaps` of main.rs:351-389 with the clock explicit: when fewer
buckets than `splits` are present, loop `for i in 1..24` (the Rust range is
exclusive, so `i` runs over 1..=23, and the bound is the literal 24, not
`splits`) pushing missing truncated timestamps, then stably sort descending
by time; otherwise return the data unchanged. -/
def fill_data_gaps_clock (data : List WebsiteStats) (splits : Int) (format : SplitBy)
    (number_of_seconds : Int) (clock : Nat → Int) : List WebsiteStats :=
  if (data.length : Int) < splits then
    List.mergeSort
      ((List.range' 1 23).foldl
        (fun acc i => fillStep acc (gapTime format number_of_seconds (clock i) (Int.ofNat i)))
        data)
      (fun a b => decide (b.time ≤ a.time))
  else data

/-- `fill_data_gaps` when the wall clock does not advance during the loop:
every iteration's `Utc::now()` reads the same instant `now`. -/
def fill_data_gaps (data : List WebsiteStats) (splits : Int) (format : SplitBy)
    (number_of_seconds : Int) (now : Int) : List WebsiteStats :=
  fill_data_gaps_clock data splits format number_of_seconds (fun _ => now)

/-- `COUNT(CASE WHEN status = 200 THEN 1 END)` over one bucket's observations. -/
def count_ok (statuses : List Int) : Nat := (statuses.filter (fun s => s == 200)).length

/-- The `uptime_pct` column of `SELECT_DAILY_STATS` / `SELECT_MONTHLY_STATS`:
`COUNT(CASE WHEN status = 200 THEN 1 END) * 100 / COUNT(*)` with SQL integer
division (truncating; operands are non-negative, so this is floor division). -/
def uptime_pct (statuses : List Int) : Nat := count_ok statuses * 100 / statuses.length

/-- One tick of `check_websites_postgres` / `check_websites_sqlite`: walk the
site list in order; an HTTP response (`some code`) inserts one Logs row; a
probe failure (`none`) hits `client.get(url).send().await.unwrap()`, which
panics the whole task.  Result: the observations actually inserted, and
whether the loop survived the tick. -/
def check_websites_tick : List (String × Option Int) → List (String × Int) × Bool
  | [] => ([], true)
  | (site, some code) :: rest =>
    let r := check_websites_tick rest
    ((site, code) :: r.1, r.2)
  | (_, none) :: _ => ([], false)

/-- A `Websites` table row. -/
structure Website where
  id : Nat
  url : String
  alias_ : String
deriving DecidableEq, Repr

/-- A `Logs` table row. -/
structure Log where
  id : Nat
  website_id : Nat
  status : Int
deriving DecidableEq, Repr

/-- The two-table database state. -/
structure Db where
  websites : List Website
  logs : List Log
deriving DecidableEq, Repr

/-- The `ApiError` enum of main.rs: its only variant wraps an SQL error. -/
inductive ApiError where
  | SQL (msg : String)
deriving DecidableEq, Repr

/-- Executing the first statement of the delete transaction,
`DELETE FROM Logs LEFT JOIN Websites ON Websites.id = Logs.website_id
WHERE Websites.alias = $1` (main.rs:471-473 and 500-502).  A DELETE
statement admits no JOIN clause in either dialect — PostgreSQL expresses
joined deletes with `DELETE ... USING`, SQLite allows no join at all — so
both engines reject this statement with a syntax error at parse time: every
execution yields an SQL error and deletes nothing.  On success it would
yield the surviving Logs rows; that outcome is unreachable. -/
def delete_logs_left_join (_a : String) (_db : Db) : Except ApiError (List Log) :=
  .error (.SQL "syntax error at or near LEFT")

/-- `delete_website_postgres` / `delete_website_sqlite` (main.rs:468-524):
begin a transaction; run the malformed Logs DELETE — on its error, roll back
and return the error with the caller-visible state unchanged (this is what
every call does); were it ever to succeed, run
`DELETE FROM Websites WHERE alias = $1` and commit.  Returns the
caller-visible state after the call together with the error, if any. -/
def delete_website_backend (a : String) (db : Db) : Db × Option ApiError :=
  match delete_logs_left_join a db with
  | .error e => (db, some e)
  | .ok logs' =>
    ({ websites := db.websites.filter (fun w => !(w.alias_ == a)), logs := logs' },
     none)

/-- The `delete_website` axum handler (main.rs:456-466): dispatch to the
backend delete and, if it returned no error, answer `StatusCode::OK` (200). -/
def delete_website (a : String) (db : Db) : Db × Except ApiError Nat :=
  match delete_website_backend a db with
  | (db', some e) => (db', .error e)
  | (db', none) => (db', .ok 200)

/-- `impl IntoResponse for ApiError` (main.rs:140-149) together with the
handler's success value: an SQL error surfaces as HTTP 500
(`INTERNAL_SERVER_ERROR`); the only success status the delete handler
produces is 200.  No response path yields a NotFound (404). -/
def response_status : Except ApiError Nat → Nat
  | .error (.SQL _) => 500
  | .ok code => code

/-- A fixed realistic probing instant (ns since epoch), used as the concrete
`now` of the evaluation theorems: 2023-11-14 22:13:20.123456789 UTC. -/
def testNow : Int := 1700000000123456789

end UptimeFerris

namespace UptimeFerris

/-- When gap-filling triggers, `fill_data_gaps` is the descending stable sort
of the input extended by the fill loop. -/
theorem fill_data_gaps_eq_pos {data : List WebsiteStats} {splits : Int}
    {format : SplitBy} {secs now : Int} (h : (data.length : Int) < splits) :
    fill_data_gaps data splits format secs now =
      List.mergeSort
        ((List.range' 1 23).foldl
          (fun acc i => fillStep acc (gapTime format secs now (Int.ofNat i))) data)
        (fun a b => decide (b.time ≤ a.time)) := by
  unfold fill_data_gaps fill_data_gaps_clock
  rw [if_pos h]

/-- When no gap-filling is needed, `fill_data_gaps` returns its input unchanged. -/
theorem fill_data_gaps_eq_neg {data : List WebsiteStats} {splits : Int}
    {format : SplitBy} {secs now : Int} (h : ¬ (data.length : Int) < splits) :
    fill_data_gaps data splits format secs now = data := by
  unfold fill_data_gaps fill_data_gaps_clock
  rw [if_neg h]

/-- Zeroing minutes, seconds and nanoseconds lands on an hour boundary. -/
theorem zeroMinSecNano_emod (t : Int) : zeroMinSecNano t % hourNs = 0 := by
  simp only [zeroMinSecNano, hourNs, nsPerSec]
  omega

/-- On an hour-aligned instant, additionally zeroing the hour lands on a day
boundary. -/
theorem zeroHour_emod {t : Int} (h : t % hourNs = 0) :
    zeroHour t % dayNs = 0 := by
  simp only [zeroHour, hourNs, dayNs, nsPerSec] at h ⊢
  omega

/-- A day-aligned instant is also hour-aligned. -/
theorem hour_emod_of_day_emod {t : Int} (h : t % dayNs = 0) :
    t % hourNs = 0 := by
  simp only [hourNs, dayNs, nsPerSec] at h ⊢
  omega

/-- The fill loop only appends: it extends its input by a suffix of
synthesized buckets, each a truncated walked-back timestamp with absent
uptime. -/
theorem foldl_fillStep_spec (format : SplitBy) (secs now : Int) :
    ∀ (is : List Nat) (data : List WebsiteStats),
      ∃ suffix,
        is.foldl (fun acc i => fillStep acc (gapTime format secs now (Int.ofNat i))) data =
          data ++ suffix ∧
        ∀ x ∈ suffix, ∃ i ∈ is, x = ⟨gapTime format secs now (Int.ofNat i), none⟩
  | [], data => ⟨[], by simp, by simp⟩
  | i :: is, data => by
    obtain ⟨suffix, heq, hsuf⟩ :=
      foldl_fillStep_spec format secs now is
        (fillStep data (gapTime format secs now (Int.ofNat i)))
    rw [List.foldl_cons]
    by_cases hdup : data.any (fun x => x.time == gapTime format secs now (Int.ofNat i))
    · refine ⟨suffix, ?_, ?_⟩
      · simp only [fillStep, if_pos hdup] at heq ⊢
        exact heq
      · intro x hx
        obtain ⟨j, hj, hxj⟩ := hsuf x hx
        exact ⟨j, List.mem_cons_of_mem _ hj, hxj⟩
    · refine ⟨⟨gapTime format secs now (Int.ofNat i), none⟩ :: suffix, ?_, ?_⟩
      · simp only [fillStep, if_neg hdup] at heq ⊢
        rw [heq, List.append_assoc, List.singleton_append]
      · intro x hx
        rcases List.mem_cons.mp hx with rfl | hx
        · exact ⟨i, List.mem_cons_self _ _, rfl⟩
        · obtain ⟨j, hj, hxj⟩ := hsuf x hx
          exact ⟨j, List.mem_cons_of_mem _ hj, hxj⟩

end UptimeFerris

namespace UptimeFerris

/-- Claim C1: for hourly (bucket_count 24) and daily (bucket_count 30)
granularity, whenever fewer real buckets than bucket_count are present,
`fill_data_gaps` is claimed to return exactly bucket_count pairwise-distinct
buckets.  The code does not: its fill loop is the hardcoded `for i in 1..24`
(23 iterations, ignoring `splits`), so on an empty input it returns 23
buckets for both granularities — not 24, and not 30. -/
theorem claim_C1 :
    (fill_data_gaps [] 24 .Hour 3600 testNow).length = 23 ∧
    (fill_data_gaps [] 30 .Day 86400 testNow).length = 23 := by
  constructor
  · rw [fill_data_gaps_eq_pos (by decide), List.length_mergeSort]
    decide
  · rw [fill_data_gaps_eq_pos (by decide), List.length_mergeSort]
    decide

/-- Claim C5: on an empty input with a fixed `now`, hourly aggregation is
claimed to return 24 buckets with timestamps descending from `now` truncated
to the hour.  The code returns 23 buckets, and none of them carries the
timestamp `now` truncated to the hour (the walk starts at `i = 1`, i.e. one
hour before `now`). -/
theorem claim_C5 :
    (fill_data_gaps [] 24 .Hour 3600 testNow).length = 23 ∧
    (fill_data_gaps [] 24 .Hour 3600 testNow).countP
      (fun x => x.time == zeroMinSecNano testNow) = 0 := by
  constructor
  · rw [fill_data_gaps_eq_pos (by decide), List.length_mergeSort]
    decide
  · rw [fill_data_gaps_eq_pos (by decide), (List.mergeSort_perm _ _).countP_eq]
    decide

/-- Claim C3: a single site's probe failure is claimed not to abort the tick
and not to prevent the other sites from being probed.  In the code the
failed `send().await.unwrap()` panics the probing task: with three sites
where the second probe fails, only the first site's observation is recorded,
the third site is never probed, and the loop does not survive. -/
theorem claim_C3 :
    check_websites_tick
        [("a", some 200), ("b", none), ("c", some 200)] =
      ([("a", 200)], false) := rfl

end UptimeFerris

namespace UptimeFerris

/-- Claim C2: for every populated bucket, the reported uptime percentage is
the floor of `100 * count(status = 200) / count(*)` — truncating integer
division, not rounding; in particular `[200,200,200,404]` yields 75,
`[200,404,404]` yields 33 (not 34), and `[200,200,200,200,404]` yields 80. -/
theorem claim_C2 (statuses : List Int) (_populated : statuses ≠ []) :
    (uptime_pct statuses : ℤ) =
      ⌊((count_ok statuses * 100 : ℕ) : ℚ) / ((statuses.length : ℕ) : ℚ)⌋ ∧
    uptime_pct [200, 200, 200, 404] = 75 ∧
    uptime_pct [200, 404, 404] = 33 ∧
    uptime_pct [200, 200, 200, 200, 404] = 80 := by
  refine ⟨?_, by decide, by decide, by decide⟩
  rw [Rat.floor_natCast_div_natCast]
  exact_mod_cast (rfl : uptime_pct statuses = uptime_pct statuses)

/-- Witness for C2 at the truncation-sensitive bucket `[200, 404, 404]`. -/
theorem claim_C2_witness :
    ([200, 404, 404] : List Int) ≠ [] ∧
    ((uptime_pct [200, 404, 404] : ℤ) =
        ⌊((count_ok [200, 404, 404] * 100 : ℕ) : ℚ) /
          ((([200, 404, 404] : List Int).length : ℕ) : ℚ)⌋ ∧
      uptime_pct [200, 200, 200, 404] = 75 ∧
      uptime_pct [200, 404, 404] = 33 ∧
      uptime_pct [200, 200, 200, 200, 404] = 80) :=
  ⟨by decide, claim_C2 [200, 404, 404] (by decide)⟩

end UptimeFerris

namespace UptimeFerris

/-- Claim C4: deleting a site by alias is claimed to be atomic, with a
reachable success leaving zero rows referencing the alias.  The code cannot
do this: the first statement of the transaction is a syntax error in both
engines, so every delete attempt — registered alias or not — errors, rolls
back, and leaves both tables exactly unchanged: the site and all its
observations remain.  The rollback half of the claim is what the code does;
the successful-delete half is unreachable. -/
theorem claim_C4 (a : String) (db : Db) :
    (delete_website_backend a db).1 = db ∧
    (delete_website_backend a db).2 = some (.SQL "syntax error at or near LEFT") :=
  ⟨rfl, rfl⟩

/-- A database holding one website aliased `a`, used against claim C9. -/
def dbA : Db := ⟨[⟨1, "https://a.example", "a"⟩], [⟨1, 1, 200⟩]⟩

/-- Counterexample to claim C9: deleting the unregistered alias `ghost`
fails — but with the wrapped SQL error from the malformed Logs DELETE,
surfaced as HTTP 500, not with a NotFound error; the `ApiError` type has no
NotFound variant at all, so no NotFound failure is even expressible. -/
theorem claim_C9_counterexample :
    delete_website "ghost" dbA = (dbA, .error (.SQL "syntax error at or near LEFT")) ∧
    response_status (delete_website "ghost" dbA).2 = 500 :=
  ⟨rfl, rfl⟩

/-- Claim C9 (amended): deleting a site whose alias is not registered does
fail, but with a wrapped SQL error surfaced as HTTP 500, not NotFound — the
code's only error kind wraps SQL errors and maps to 500; indeed every
delete, for any alias and any database state, fails identically because the
Logs DELETE statement is malformed. -/
theorem claim_C9 (a : String) (db : Db) :
    delete_website a db = (db, .error (.SQL "syntax error at or near LEFT")) ∧
    response_status (delete_website a db).2 = 500 :=
  ⟨rfl, rfl⟩

end UptimeFerris

namespace UptimeFerris

/-- Claim C6: every bucket synthesized by the gap-filler obeys the boundary
rule: for hourly granularity its timestamp has minutes, seconds and
sub-second components zeroed (it is a whole multiple of one hour); for daily
granularity additionally the hour is zeroed (a whole multiple of one day). -/
theorem claim_C6 (data : List WebsiteStats) (splits : Int) (format : SplitBy)
    (secs now : Int) (x : WebsiteStats)
    (hmem : x ∈ fill_data_gaps data splits format secs now) (hnew : x ∉ data) :
    x.time % hourNs = 0 ∧ (format = .Day → x.time % dayNs = 0) := by
  by_cases hc : (data.length : Int) < splits
  · rw [fill_data_gaps_eq_pos hc, List.mem_mergeSort] at hmem
    obtain ⟨suffix, heq, hsuf⟩ := foldl_fillStep_spec format secs now (List.range' 1 23) data
    rw [heq, List.mem_append] at hmem
    rcases hmem with h | h
    · exact absurd h hnew
    · obtain ⟨i, _, rfl⟩ := hsuf x h
      cases format with
      | Hour => exact ⟨zeroMinSecNano_emod _, fun hd => SplitBy.noConfusion hd⟩
      | Day =>
        have hday : gapTime .Day secs now (Int.ofNat i) % dayNs = 0 :=
          zeroHour_emod (zeroMinSecNano_emod _)
        exact ⟨hour_emod_of_day_emod hday, fun _ => hday⟩
  · rw [fill_data_gaps_eq_neg hc] at hmem
    exact absurd hmem hnew

/-- Witness for C6 at a concrete synthesized daily bucket. -/
theorem claim_C6_witness :
    (⟨gapTime .Day 86400 testNow 1, none⟩ : WebsiteStats).time % hourNs = 0 ∧
    (SplitBy.Day = .Day →
      (⟨gapTime .Day 86400 testNow 1, none⟩ : WebsiteStats).time % dayNs = 0) :=
  claim_C6 [] 30 .Day 86400 testNow ⟨gapTime .Day 86400 testNow 1, none⟩
    (by rw [fill_data_gaps_eq_pos (by decide), List.mem_mergeSort]; decide)
    (by decide)

/-- Claim C7: the output ordering is asymmetric — whenever gap-filling
occurred (fewer real buckets than `splits`) the result is sorted descending
by bucket start; whenever it did not, the result is the untouched input, in
whatever (ascending, for the query) order it arrived. -/
theorem claim_C7 (data : List WebsiteStats) (splits : Int) (format : SplitBy)
    (secs now : Int) :
    ((data.length : Int) < splits →
      (fill_data_gaps data splits format secs now).Pairwise
        (fun a b => b.time ≤ a.time)) ∧
    (¬ (data.length : Int) < splits →
      fill_data_gaps data splits format secs now = data) := by
  constructor
  · intro h
    rw [fill_data_gaps_eq_pos h]
    refine List.Pairwise.imp (fun hab => of_decide_eq_true hab)
      (List.sorted_mergeSort ?_ ?_ _)
    · intro a b c h1 h2
      exact decide_eq_true (le_trans (of_decide_eq_true h2) (of_decide_eq_true h1))
    · intro a b
      rcases le_total b.time a.time with hle | hle
      · exact (Bool.or_eq_true _ _).mpr (Or.inl (decide_eq_true hle))
      · exact (Bool.or_eq_true _ _).mpr (Or.inr (decide_eq_true hle))
  · intro h
    exact fill_data_gaps_eq_neg h

/-- Three real hourly buckets, more than a splits value of 2: no gap-filling. -/
def statsBig : List WebsiteStats := [⟨0, some 100⟩, ⟨hourNs, some 50⟩, ⟨2 * hourNs, none⟩]

/-- Witness for C7: the filled empty series is sorted descending, and a
series already at least `splits` long is returned untouched. -/
theorem claim_C7_witness :
    (fill_data_gaps [] 24 .Hour 3600 testNow).Pairwise (fun a b => b.time ≤ a.time) ∧
    fill_data_gaps statsBig 2 .Hour 3600 testNow = statsBig :=
  ⟨(claim_C7 [] 24 .Hour 3600 testNow).1 (by decide),
   (claim_C7 statsBig 2 .Hour 3600 testNow).2 (by decide)⟩

/-- Claim C8: with the wall clock frozen at `now` for the whole run — the
Rust code re-reads `Utc::now()` on every loop iteration, which the clock
parameter models — aggregation is deterministic: two runs on the same bucket
list with the same `now` produce identical output, namely
`fill_data_gaps` at that `now`. -/
theorem claim_C8 (data : List WebsiteStats) (splits : Int) (format : SplitBy)
    (secs now : Int) (clock1 clock2 : Nat → Int)
    (h1 : ∀ i, clock1 i = now) (h2 : ∀ i, clock2 i = now) :
    fill_data_gaps_clock data splits format secs clock1 =
      fill_data_gaps_clock data splits format secs clock2 ∧
    fill_data_gaps_clock data splits format secs clock1 =
      fill_data_gaps data splits format secs now := by
  have e1 : clock1 = fun _ => now := funext h1
  have e2 : clock2 = fun _ => now := funext h2
  exact ⟨by rw [e1, e2], by rw [e1]; rfl⟩

/-- Witness for C8 with two syntactically different frozen clocks. -/
theorem claim_C8_witness :
    fill_data_gaps_clock [] 24 .Hour 3600 (fun _ => testNow) =
      fill_data_gaps_clock [] 24 .Hour 3600 (fun _ => testNow * 1) ∧
    fill_data_gaps_clock [] 24 .Hour 3600 (fun _ => testNow) =
      fill_data_gaps [] 24 .Hour 3600 testNow :=
  claim_C8 [] 24 .Hour 3600 testNow (fun _ => testNow) (fun _ => testNow * 1)
    (fun _ => rfl) (fun _ => Int.mul_one testNow)

/-- Claim C10: gap-filling only appends — every input bucket survives with
its timestamp and uptime value intact (multiplicity included), and every
output bucket that was not in the input is synthesized with absent uptime. -/
theorem claim_C10 (data : List WebsiteStats) (splits : Int) (format : SplitBy)
    (secs now : Int) :
    (∀ x, data.count x ≤ (fill_data_gaps data splits format secs now).count x) ∧
    (∀ x ∈ fill_data_gaps data splits format secs now,
      x ∉ data → x.uptime_pct = none) := by
  by_cases hc : (data.length : Int) < splits
  · obtain ⟨suffix, heq, hsuf⟩ := foldl_fillStep_spec format secs now (List.range' 1 23) data
    constructor
    · intro x
      rw [fill_data_gaps_eq_pos hc, (List.mergeSort_perm _ _).count_eq, heq,
        List.count_append]
      exact Nat.le_add_right _ _
    · intro x hx hnx
      rw [fill_data_gaps_eq_pos hc, List.mem_mergeSort, heq, List.mem_append] at hx
      rcases hx with h | h
      · exact absurd h hnx
      · obtain ⟨i, _, rfl⟩ := hsuf x h
        rfl
  · rw [fill_data_gaps_eq_neg hc]
    exact ⟨fun x => le_refl _, fun x hx hnx => absurd hx hnx⟩

/-- One real bucket at the epoch hour. -/
def statsOne : List WebsiteStats := [⟨0, some 99⟩]

/-- Witness for C10: the real bucket of `statsOne` survives filling, and the
concrete synthesized bucket two hours back has absent uptime. -/
theorem claim_C10_witness :
    statsOne.count ⟨0, some 99⟩ ≤
      (fill_data_gaps statsOne 24 .Hour 3600 testNow).count ⟨0, some 99⟩ ∧
    (⟨gapTime .Hour 3600 testNow 2, none⟩ : WebsiteStats).uptime_pct = none :=
  ⟨(claim_C10 statsOne 24 .Hour 3600 testNow).1 ⟨0, some 99⟩,
   (claim_C10 statsOne 24 .Hour 3600 testNow).2 ⟨gapTime .Hour 3600 testNow 2, none⟩
     (by rw [fill_data_gaps_eq_pos (by decide), List.mem_mergeSort]; decide)
     (by decide)⟩

end UptimeFerris
